import Mathlib

/-!
A shallow embedding of the solar battery controller's core
(src/main/channel_processor.c and src/main/control_handler.c).

Conventions of the embedding:
* C `int32_t` / `int` values are modelled as `ℤ`, C `uint32_t` as `ℕ`
  (with explicit `% 2^32` wherever the code relies on wrap-around, as in
  the debounce subtraction), C `uint8_t` duty percentages as `ℕ`.
* C `int64_t` (the filter's running sum) is modelled as `ℤ`: the sum of
  16 `int32_t` samples is far below `2^63`, so the C value never wraps.
* C `float` quantities (temperature, temperature coefficient) are
  modelled as exact rationals `ℚ`; the cast `(int32_t)x` on a float is
  truncation toward zero, embedded as `ratTrunc`.
* The global NVS configuration (`g_config` in src/main/nvs_storage.h) is
  passed explicitly as an `nvs_config_t` argument: a call such as
  `nvs_get_ch0_th_on()` becomes a field read of that argument, so
  "live" reads are reads of the per-call argument while values cached in
  the channel context are fields of `channel_context_t`.
* FreeRTOS queues are modelled as lists, head = front of the queue;
  `xQueuePeek` is `List.head?`.
-/

namespace SolarController

/-- MA_SIZE in channel_processor.c: number of samples averaged. -/
def MA_SIZE : ℕ := 16

/-- MIN_STATE_CHANGE_MS in channel_processor.c: debounce dwell time. -/
def MIN_STATE_CHANGE_MS : ℕ := 5000

/-- Truncation toward zero of a rational, the value of the C cast
`(int32_t)x` applied to a float `x` (for results in `int32_t` range). -/
def ratTrunc (q : ℚ) : ℤ := if 0 ≤ q then ⌊q⌋ else ⌈q⌉

/-- Reinterpretation of a C `uint32_t` value as `int32_t`, used where
`reading->battery_voltage_mv` (uint32_t) is passed to `ma_add` (int32_t). -/
def uint32ToInt32 (n : ℕ) : ℤ :=
  if n % 2 ^ 32 < 2 ^ 31 then (n % 2 ^ 32 : ℤ) else (n % 2 ^ 32 : ℤ) - 2 ^ 32

/-- Wrapping `uint32_t` subtraction `a - b`, as in the debounce check
`reading->timestamp_ms - ctx->state.last_change_time`. -/
def wsub32 (a b : ℕ) : ℕ := (a + 2 ^ 32 - b) % 2 ^ 32

/-- moving_average_t in channel_processor.c. -/
structure moving_average_t where
  buffer : List ℤ
  index : ℕ
  sum : ℤ
  count : ℕ
  initialized : Bool
deriving DecidableEq

/-- channel_state_t in channel_processor.h. -/
structure channel_state_t where
  output_state : Bool
  filtered_voltage : ℤ
  last_change_time : ℕ
deriving DecidableEq

/-- channel_context_t in channel_processor.c.  `th_on_mv`/`th_off_mv` are
the working (temperature-compensated) thresholds; `temp_coefficient` is
the coefficient copied from the task's `channel_config_t` at startup. -/
structure channel_context_t where
  channel_id : ℤ
  ma_filter : moving_average_t
  state : channel_state_t
  th_on_mv : ℤ
  th_off_mv : ℤ
  temp_coefficient : ℚ
  last_temperature : ℚ
deriving DecidableEq

/-- channel_config_t in channel_processor.h. -/
structure channel_config_t where
  channel_id : ℤ
  th_on_mv : ℤ
  th_off_mv : ℤ
  temp_coeff : ℚ
deriving DecidableEq

/-- channel_command_t in channel_processor.h. -/
structure channel_command_t where
  channel_id : ℤ
  output_state : Bool
  filtered_voltage : ℤ
  timestamp_ms : ℕ
deriving DecidableEq

/-- adc_reading_t: the fields of the reading consumed by
`process_channel` (battery voltage and raw temperature are `uint32_t`,
the timestamp is `uint32_t` milliseconds). -/
structure adc_reading_t where
  battery_voltage_mv : ℕ
  temperature_raw : ℕ
  timestamp_ms : ℕ
deriving DecidableEq

/-- The live NVS configuration `g_config` (src/main/nvs_storage.h): each
`nvs_get_*` accessor becomes a field read. -/
structure nvs_config_t where
  ch0_th_on_mv : ℤ
  ch0_th_off_mv : ℤ
  ch1_th_on_mv : ℤ
  ch1_th_off_mv : ℤ
  temp_coefficient : ℚ
  pwm_half_duty : ℕ
  pwm_full_duty : ℕ
  motion_timeout_ms : ℕ
deriving DecidableEq

/-- ma_init in channel_processor.c. -/
def ma_init : moving_average_t :=
  { buffer := List.replicate MA_SIZE 0, index := 0, sum := 0, count := 0,
    initialized := false }

/-- ma_add in channel_processor.c. -/
def ma_add (ma : moving_average_t) (value : ℤ) : moving_average_t :=
  if ma.initialized = false then
    { buffer := List.replicate MA_SIZE value, index := ma.index,
      sum := value * MA_SIZE, count := MA_SIZE, initialized := true }
  else
    { buffer := ma.buffer.set ma.index value,
      index := (ma.index + 1) % MA_SIZE,
      sum := ma.sum - ma.buffer.getD ma.index 0 + value,
      count := if ma.count < MA_SIZE then ma.count + 1 else ma.count,
      initialized := true }

/-- ma_get in channel_processor.c; `Int.tdiv` is C's truncating `/`. -/
def ma_get (ma : moving_average_t) : ℤ :=
  if ma.count = 0 then 0 else Int.tdiv ma.sum (ma.count : ℤ)

/-- apply_hysteresis in channel_processor.c. -/
def apply_hysteresis (current_state : Bool) (value th_on th_off : ℤ) : Bool :=
  if current_state then decide (th_off ≤ value) else decide (th_on ≤ value)

/-- The base ON threshold read live from NVS inside
apply_temperature_compensation (`nvs_get_ch0_th_on` / `nvs_get_ch1_th_on`). -/
def base_th_on (nvs : nvs_config_t) (channel_id : ℤ) : ℤ :=
  if channel_id = 0 then nvs.ch0_th_on_mv else nvs.ch1_th_on_mv

/-- The base OFF threshold read live from NVS inside
apply_temperature_compensation. -/
def base_th_off (nvs : nvs_config_t) (channel_id : ℤ) : ℤ :=
  if channel_id = 0 then nvs.ch0_th_off_mv else nvs.ch1_th_off_mv

/-- The compensation value `(int32_t)(ctx->temp_coefficient * temp_delta
* 1000.0f)` computed in apply_temperature_compensation, with the float
arithmetic modelled as exact rational arithmetic. -/
def compensation_mv (coeff temp_c : ℚ) : ℤ :=
  ratTrunc (coeff * (temp_c - 25) * 1000)

/-- apply_temperature_compensation in channel_processor.c: base
thresholds are read live from NVS, the coefficient comes from the
context; `last_temperature` is refreshed when the change exceeds 2 °C. -/
def apply_temperature_compensation (nvs : nvs_config_t)
    (ctx : channel_context_t) (temp_c : ℚ) : channel_context_t :=
  let comp := compensation_mv ctx.temp_coefficient temp_c
  { ctx with
    th_on_mv := base_th_on nvs ctx.channel_id + comp,
    th_off_mv := base_th_off nvs ctx.channel_id + comp,
    last_temperature :=
      if 2 < |temp_c - ctx.last_temperature| then temp_c
      else ctx.last_temperature }

/-- The TMP36 conversion in process_channel:
`((float)reading->temperature_raw - 500.0f) / 10.0f`. -/
def temp_from_raw (raw : ℕ) : ℚ := ((raw : ℚ) - 500) / 10

/-- The temperature sanity check in process_channel: out-of-range values
are replaced by the 25 °C reference. -/
def sanitize_temp (t : ℚ) : ℚ := if t < -40 ∨ 125 < t then 25 else t

/-- process_channel in channel_processor.c: filter, temperature
compensation, hysteresis, debounce-gated state change. -/
def process_channel (nvs : nvs_config_t) (ctx : channel_context_t)
    (reading : adc_reading_t) : channel_context_t :=
  let ma2 := ma_add ctx.ma_filter (uint32ToInt32 reading.battery_voltage_mv)
  let filtered := ma_get ma2
  let ctx1 : channel_context_t :=
    { ctx with ma_filter := ma2,
               state := { ctx.state with filtered_voltage := filtered } }
  let temp_c := sanitize_temp (temp_from_raw reading.temperature_raw)
  let ctx2 := apply_temperature_compensation nvs ctx1 temp_c
  let new_state :=
    apply_hysteresis ctx2.state.output_state filtered ctx2.th_on_mv ctx2.th_off_mv
  if new_state = ctx2.state.output_state then ctx2
  else if MIN_STATE_CHANGE_MS ≤ wsub32 reading.timestamp_ms ctx2.state.last_change_time then
    { ctx2 with
      state := { ctx2.state with output_state := new_state,
                                 last_change_time := reading.timestamp_ms } }
  else ctx2

/-- The context created at the top of channel_proc_task: configuration
values are copied (cached) into the context once, the filter and state
are zero-initialized, `last_temperature` starts at 25 °C. -/
def ctx_init (config : channel_config_t) : channel_context_t :=
  { channel_id := config.channel_id, ma_filter := ma_init,
    state := { output_state := false, filtered_voltage := 0, last_change_time := 0 },
    th_on_mv := config.th_on_mv, th_off_mv := config.th_off_mv,
    temp_coefficient := config.temp_coeff, last_temperature := 25 }

/-- configure_channels in the main file: the channel-0 configuration is
built from the NVS values once at startup. -/
def config_from_nvs_ch0 (nvs : nvs_config_t) : channel_config_t :=
  { channel_id := 0, th_on_mv := nvs.ch0_th_on_mv,
    th_off_mv := nvs.ch0_th_off_mv, temp_coeff := nvs.temp_coefficient }

/-- A run of channel_proc_task's loop body over a list of readings. -/
def runList (nvs : nvs_config_t) (ctx : channel_context_t)
    (rs : List adc_reading_t) : channel_context_t :=
  rs.foldl (process_channel nvs) ctx

/-- `true` when none of the readings, processed in order, changes the
channel's output state. -/
def noTransitionB (nvs : nvs_config_t) :
    channel_context_t → List adc_reading_t → Bool
  | _, [] => true
  | ctx, r :: rs =>
    ((process_channel nvs ctx r).state.output_state == ctx.state.output_state)
      && noTransitionB nvs (process_channel nvs ctx r) rs

/-- BATTERY_FULL_THRESHOLD in control_handler.c. -/
def BATTERY_FULL_THRESHOLD : ℕ := 13500

/-- BATTERY_HALF_THRESHOLD in control_handler.c. -/
def BATTERY_HALF_THRESHOLD : ℕ := 12000

/-- BATTERY_CRITICAL_THRESHOLD in control_handler.c. -/
def BATTERY_CRITICAL_THRESHOLD : ℕ := 11000

/-- calculate_dimming_level in control_handler.c. -/
def calculate_dimming_level (nvs : nvs_config_t) (battery_mv : ℕ)
    (motion_override : Bool) : ℕ :=
  if motion_override then nvs.pwm_full_duty
  else if BATTERY_FULL_THRESHOLD ≤ battery_mv then nvs.pwm_full_duty
  else if BATTERY_HALF_THRESHOLD ≤ battery_mv then nvs.pwm_half_duty
  else if BATTERY_CRITICAL_THRESHOLD ≤ battery_mv then nvs.pwm_half_duty / 2
  else 0

/-- One iteration of the control_task loop after the commands were
read: live battery voltage and motion state produce the duty and the
final enable flags `chX_cmd.output_state && (duty_percent > 0)`.
Returns (ch0_enable, ch1_enable, duty_percent). -/
def control_cycle (nvs : nvs_config_t) (ch0_cmd ch1_cmd : channel_command_t)
    (battery_mv : ℕ) (motion_override : Bool) : Bool × Bool × ℕ :=
  let duty_percent := calculate_dimming_level nvs battery_mv motion_override
  (ch0_cmd.output_state && decide (0 < duty_percent),
   ch1_cmd.output_state && decide (0 < duty_percent),
   duty_percent)

/-- channel_get_state in channel_processor.c: peek the channel's command
queue; any failure path returns false. -/
def channel_get_state (ch0_queue ch1_queue : List channel_command_t)
    (channel_id : ℤ) : Bool :=
  if channel_id = 0 then
    match ch0_queue.head? with
    | some cmd => cmd.output_state
    | none => false
  else if channel_id = 1 then
    match ch1_queue.head? with
    | some cmd => cmd.output_state
    | none => false
  else false

/-- channel_get_filtered_voltage in channel_processor.c: peek the
channel's command queue; any failure path returns 0. -/
def channel_get_filtered_voltage (ch0_queue ch1_queue : List channel_command_t)
    (channel_id : ℤ) : ℤ :=
  if channel_id = 0 then
    match ch0_queue.head? with
    | some cmd => cmd.filtered_voltage
    | none => 0
  else if channel_id = 1 then
    match ch1_queue.head? with
    | some cmd => cmd.filtered_voltage
    | none => 0
  else 0

end SolarController

namespace SolarController

/-- A concrete configuration used by witnesses: thresholds 12500/11800,
zero temperature coefficient, duties 50/100, 30 s motion timeout. -/
def nvsW : nvs_config_t :=
  { ch0_th_on_mv := 12500, ch0_th_off_mv := 11800,
    ch1_th_on_mv := 12500, ch1_th_off_mv := 11800,
    temp_coefficient := 0, pwm_half_duty := 50, pwm_full_duty := 100,
    motion_timeout_ms := 30000 }

/-- A concrete ON channel command used by witnesses. -/
def cmdOn : channel_command_t :=
  { channel_id := 0, output_state := true, filtered_voltage := 12100,
    timestamp_ms := 0 }

/-- A concrete one-element command queue used by witnesses. -/
def cmdQ : List channel_command_t :=
  [{ channel_id := 1, output_state := true, filtered_voltage := 12345,
     timestamp_ms := 100 }]

/-- Claim C1: whenever the motion override flag is true,
calculate_dimming_level returns the configured full duty for every
battery voltage, so the battery-level table is bypassed entirely. -/
theorem C1_motion_override_full_duty (nvs : nvs_config_t)
    (battery_mv battery_mv' : ℕ) :
    calculate_dimming_level nvs battery_mv true = nvs.pwm_full_duty
    ∧ calculate_dimming_level nvs battery_mv true
        = calculate_dimming_level nvs battery_mv' true :=
  ⟨rfl, rfl⟩

/-- Claim C4: apply_hysteresis is a two-threshold Schmitt trigger: when
ON the candidate is ON iff the value is at least the OFF threshold, when
OFF it is ON iff the value is at least the ON threshold; with
th_off < th_on, values in [th_off, th_on) keep the current state. -/
theorem C4_hysteresis_schmitt_trigger (cur : Bool) (v th_on th_off : ℤ) :
    (cur = true → (apply_hysteresis cur v th_on th_off = true ↔ th_off ≤ v))
    ∧ (cur = false → (apply_hysteresis cur v th_on th_off = true ↔ th_on ≤ v))
    ∧ (th_off < th_on → th_off ≤ v → v < th_on →
        apply_hysteresis cur v th_on th_off = cur) := by
  refine ⟨fun h => ?_, fun h => ?_, fun hgap hlo hhi => ?_⟩
  · subst h; simp [apply_hysteresis]
  · subst h; simp [apply_hysteresis]
  · cases cur with
    | false => simp only [apply_hysteresis, if_false, Bool.false_eq]
               simpa using by omega
    | true => simp only [apply_hysteresis, if_true, Bool.true_eq]
              simpa using hlo

/-- Witness for C4 at the spec's 12500/11800 thresholds and a voltage
inside the hysteresis band. -/
theorem C4_hysteresis_witness :
    apply_hysteresis true 12000 12500 11800 = true
    ∧ apply_hysteresis false 12000 12500 11800 = false :=
  ⟨((C4_hysteresis_schmitt_trigger true 12000 12500 11800).1 rfl).mpr (by decide),
   (C4_hysteresis_schmitt_trigger false 12000 12500 11800).2.2 (by decide)
     (by decide) (by decide)⟩

/-- Claim C6: with motion inactive, the duty is the configured full duty
for battery ≥ 13500 mV, the configured half duty for [12000, 13500),
half of the half duty (integer division) for [11000, 12000), and 0
below 11000 mV. -/
theorem C6_battery_dimming_table (nvs : nvs_config_t) (battery_mv : ℕ) :
    (13500 ≤ battery_mv →
      calculate_dimming_level nvs battery_mv false = nvs.pwm_full_duty)
    ∧ (12000 ≤ battery_mv → battery_mv < 13500 →
      calculate_dimming_level nvs battery_mv false = nvs.pwm_half_duty)
    ∧ (11000 ≤ battery_mv → battery_mv < 12000 →
      calculate_dimming_level nvs battery_mv false = nvs.pwm_half_duty / 2)
    ∧ (battery_mv < 11000 →
      calculate_dimming_level nvs battery_mv false = 0) := by
  refine ⟨fun h => ?_, fun h1 h2 => ?_, fun h1 h2 => ?_, fun h => ?_⟩
  · simp [calculate_dimming_level, BATTERY_FULL_THRESHOLD, h]
  · simp [calculate_dimming_level, BATTERY_FULL_THRESHOLD,
          BATTERY_HALF_THRESHOLD, Nat.not_le.mpr h2, h1]
  · simp [calculate_dimming_level, BATTERY_FULL_THRESHOLD,
          BATTERY_HALF_THRESHOLD, BATTERY_CRITICAL_THRESHOLD,
          Nat.not_le.mpr (show battery_mv < 13500 by omega),
          Nat.not_le.mpr h2, h1]
  · simp [calculate_dimming_level, BATTERY_FULL_THRESHOLD,
          BATTERY_HALF_THRESHOLD, BATTERY_CRITICAL_THRESHOLD,
          Nat.not_le.mpr h,
          Nat.not_le.mpr (show battery_mv < 12000 by omega),
          Nat.not_le.mpr (show battery_mv < 13500 by omega)]

/-- Witness for C6 at the spec's scenario voltages 13600, 12100, 11050
and 10900 mV with duties 100/50. -/
theorem C6_battery_dimming_witness :
    calculate_dimming_level nvsW 13600 false = 100
    ∧ calculate_dimming_level nvsW 12100 false = 50
    ∧ calculate_dimming_level nvsW 11050 false = 25
    ∧ calculate_dimming_level nvsW 10900 false = 0 :=
  ⟨(C6_battery_dimming_table nvsW 13600).1 (by decide),
   (C6_battery_dimming_table nvsW 12100).2.1 (by decide) (by decide),
   (C6_battery_dimming_table nvsW 11050).2.2.1 (by decide) (by decide),
   (C6_battery_dimming_table nvsW 10900).2.2.2 (by decide)⟩

/-- Claim C7: the final enable flag is the channel command's ON state
AND duty > 0; an ON channel with duty 0 is reported disabled, and with
the same (unchanged) command it is reported enabled again as soon as the
duty is positive. -/
theorem C7_enable_flags (nvs : nvs_config_t) (c0 c1 : channel_command_t)
    (b : ℕ) (m : Bool) :
    ((control_cycle nvs c0 c1 b m).1
        = (c0.output_state && decide (0 < calculate_dimming_level nvs b m)))
    ∧ ((control_cycle nvs c0 c1 b m).2.1
        = (c1.output_state && decide (0 < calculate_dimming_level nvs b m)))
    ∧ (c0.output_state = true → calculate_dimming_level nvs b m = 0 →
        (control_cycle nvs c0 c1 b m).1 = false)
    ∧ (c0.output_state = true → 0 < calculate_dimming_level nvs b m →
        (control_cycle nvs c0 c1 b m).1 = true) := by
  refine ⟨rfl, rfl, fun h0 hd => ?_, fun h0 hd => ?_⟩
  · simp [control_cycle, hd]
  · simp [control_cycle, h0, hd]

/-- Witness for C7: the same ON command is reported disabled at
10900 mV (duty 0) and enabled at 13600 mV (duty 100). -/
theorem C7_enable_flags_witness :
    (control_cycle nvsW cmdOn cmdOn 10900 false).1 = false
    ∧ (control_cycle nvsW cmdOn cmdOn 13600 false).1 = true :=
  ⟨(C7_enable_flags nvsW cmdOn cmdOn 10900 false).2.2.1 rfl (by decide),
   (C7_enable_flags nvsW cmdOn cmdOn 13600 false).2.2.2 rfl (by decide)⟩

/-- Claim C10: the status queries default silently: with the queried
channel's queue empty, or with a channel id other than 0 or 1,
channel_get_state returns false and channel_get_filtered_voltage
returns 0. -/
theorem C10_status_query_defaults (q0 q1 : List channel_command_t)
    (channel_id : ℤ) :
    (q0 = [] → channel_get_state q0 q1 0 = false
        ∧ channel_get_filtered_voltage q0 q1 0 = 0)
    ∧ (q1 = [] → channel_get_state q0 q1 1 = false
        ∧ channel_get_filtered_voltage q0 q1 1 = 0)
    ∧ (channel_id ≠ 0 → channel_id ≠ 1 →
        channel_get_state q0 q1 channel_id = false
        ∧ channel_get_filtered_voltage q0 q1 channel_id = 0) := by
  refine ⟨fun h => ?_, fun h => ?_, fun h0 h1 => ?_⟩
  · subst h; simp [channel_get_state, channel_get_filtered_voltage]
  · subst h; simp [channel_get_state, channel_get_filtered_voltage]
  · simp [channel_get_state, channel_get_filtered_voltage, h0, h1]

/-- Witness for C10: an empty channel-0 queue answers false/0, and
channel id 7 answers false/0 even though both queues hold an ON command
with a nonzero filtered voltage. -/
theorem C10_status_query_witness :
    (channel_get_state [] cmdQ 0 = false
      ∧ channel_get_filtered_voltage [] cmdQ 0 = 0)
    ∧ (channel_get_state cmdQ cmdQ 7 = false
      ∧ channel_get_filtered_voltage cmdQ cmdQ 7 = 0) :=
  ⟨(C10_status_query_defaults [] cmdQ 0).1 rfl,
   (C10_status_query_defaults cmdQ cmdQ 7).2.2 (by decide) (by decide)⟩

end SolarController

namespace SolarController

/-- Outputs of repeated filter pushes: each element is the average
returned after adding the corresponding sample (ma_add then ma_get, the
order used in process_channel). -/
def ma_run : moving_average_t → List ℤ → List ℤ
  | _, [] => []
  | ma, v :: vs => ma_get (ma_add ma v) :: ma_run (ma_add ma v) vs

/-- Setting a slot of a constant buffer to the same value changes nothing. -/
lemma set_replicate_self (n : ℕ) (a : ℤ) (i : ℕ) :
    (List.replicate n a).set i a = List.replicate n a := by
  induction n generalizing i with
  | zero => rfl
  | succ m ih => cases i <;> simp [List.replicate, List.set, ih]

/-- Reading any in-range slot of a constant buffer gives the constant. -/
lemma getD_replicate (n : ℕ) (a d : ℤ) (i : ℕ) (h : i < n) :
    (List.replicate n a).getD i d = a := by
  induction n generalizing i with
  | zero => omega
  | succ m ih =>
    cases i with
    | zero => rfl
    | succ j => simpa [List.replicate] using ih j (by omega)

/-- The very first ma_add seeds the whole buffer with the sample. -/
lemma ma_add_init (v : ℤ) :
    ma_add ma_init v
      = ⟨List.replicate 16 v, 0, v * 16, 16, true⟩ := rfl

/-- Adding the buffer's constant value to a saturated constant filter
leaves everything but the write index unchanged. -/
lemma ma_add_steady (v : ℤ) (i : ℕ) (h : i < 16) :
    ma_add ⟨List.replicate 16 v, i, v * 16, 16, true⟩ v
      = ⟨List.replicate 16 v, (i + 1) % 16, v * 16, 16, true⟩ := by
  unfold ma_add
  rw [if_neg (by simp)]
  simp only [MA_SIZE]
  rw [set_replicate_self, getD_replicate 16 v 0 i h]
  norm_num

/-- The average of a saturated constant filter is the constant. -/
lemma ma_get_steady (v : ℤ) (i : ℕ) :
    ma_get ⟨List.replicate 16 v, i, v * 16, 16, true⟩ = v := by
  simp only [ma_get]
  norm_num

/-- Pushing the constant repeatedly from a saturated constant filter
returns the constant every time. -/
lemma ma_run_steady (v : ℤ) :
    ∀ (k i : ℕ), i < 16 →
      ma_run ⟨List.replicate 16 v, i, v * 16, 16, true⟩ (List.replicate k v)
        = List.replicate k v := by
  intro k
  induction k with
  | zero => intro i _; rfl
  | succ m ih =>
    intro i h
    rw [show ma_run ⟨List.replicate 16 v, i, v * 16, 16, true⟩
            (List.replicate (m + 1) v)
          = ma_get (ma_add ⟨List.replicate 16 v, i, v * 16, 16, true⟩ v)
            :: ma_run (ma_add ⟨List.replicate 16 v, i, v * 16, 16, true⟩ v)
                (List.replicate m v) from rfl]
    rw [ma_add_steady v i h, ma_get_steady,
        ih ((i + 1) % 16) (Nat.mod_lt _ (by norm_num)), List.replicate_succ]

/-- Claim C8: the first sample pushed into a fresh filter seeds all 16
slots and the returned average is that sample exactly; a sequence of 16
or more identical samples returns that sample from every push onward. -/
theorem C8_filter_seed_and_convergence :
    (∀ v : ℤ, (ma_add ma_init v).buffer = List.replicate 16 v
        ∧ ma_get (ma_add ma_init v) = v)
    ∧ (∀ (n : ℕ) (v : ℤ), 16 ≤ n →
        ma_run ma_init (List.replicate n v) = List.replicate n v) := by
  constructor
  · intro v
    rw [ma_add_init]
    exact ⟨rfl, ma_get_steady v 0⟩
  · intro n v hn
    obtain ⟨m, rfl⟩ : ∃ m, n = m + 1 := ⟨n - 1, by omega⟩
    rw [show ma_run ma_init (List.replicate (m + 1) v)
          = ma_get (ma_add ma_init v)
            :: ma_run (ma_add ma_init v) (List.replicate m v) from rfl]
    rw [ma_add_init, ma_get_steady,
        ma_run_steady v m 0 (by norm_num), List.replicate_succ]

/-- Witness for C8: sixteen pushes of 7 into a fresh filter all
return 7. -/
theorem C8_filter_witness :
    ma_run ma_init (List.replicate 16 7) = List.replicate 16 7 :=
  C8_filter_seed_and_convergence.2 16 7 (by decide)

/-- Truncation toward zero is an odd function. -/
lemma ratTrunc_neg (q : ℚ) : ratTrunc (-q) = -ratTrunc q := by
  unfold ratTrunc
  rcases lt_trichotomy q 0 with h | rfl | h
  · rw [if_pos (neg_nonneg.mpr h.le), if_neg (not_le.mpr h), Int.floor_neg]
  · simp
  · rw [if_neg (by simpa using not_le.mpr h), if_pos h.le, Int.ceil_neg]

/-- A zero coefficient gives zero compensation at every temperature. -/
lemma compensation_mv_zero (t : ℚ) : compensation_mv 0 t = 0 := by
  simp [compensation_mv, ratTrunc]

/-- The compensated ON threshold is the live NVS base threshold plus the
compensation computed from the context's coefficient. -/
lemma atc_th_on (nvs : nvs_config_t) (ctx : channel_context_t) (t : ℚ) :
    (apply_temperature_compensation nvs ctx t).th_on_mv
      = base_th_on nvs ctx.channel_id
        + compensation_mv ctx.temp_coefficient t := rfl

/-- The compensated OFF threshold is the live NVS base threshold plus
the same compensation. -/
lemma atc_th_off (nvs : nvs_config_t) (ctx : channel_context_t) (t : ℚ) :
    (apply_temperature_compensation nvs ctx t).th_off_mv
      = base_th_off nvs ctx.channel_id
        + compensation_mv ctx.temp_coefficient t := rfl

/-- Claim C9: temperature compensation shifts both thresholds by the
same amount, so the hysteresis gap equals the configured gap at every
temperature; and the compensation at 25+d and 25-d degrees has equal
magnitude and opposite sign. -/
theorem C9_compensation_gap_and_symmetry (nvs : nvs_config_t)
    (ctx : channel_context_t) (temp_c d : ℚ) :
    (apply_temperature_compensation nvs ctx temp_c).th_on_mv
        - (apply_temperature_compensation nvs ctx temp_c).th_off_mv
      = base_th_on nvs ctx.channel_id - base_th_off nvs ctx.channel_id
    ∧ compensation_mv ctx.temp_coefficient (25 + d)
      = -compensation_mv ctx.temp_coefficient (25 - d) := by
  constructor
  · rw [atc_th_on, atc_th_off]; ring
  · simp only [compensation_mv]
    rw [show ctx.temp_coefficient * (25 - d - 25) * 1000
          = -(ctx.temp_coefficient * (25 + d - 25) * 1000) by ring,
        ratTrunc_neg, neg_neg]

end SolarController

namespace SolarController

/-- The startup configuration used in the C2 counterexample: thresholds
12500/11800 and a typical lead-acid coefficient of -0.02 V/°C. -/
def nvsOld : nvs_config_t := { nvsW with temp_coefficient := -1/50 }

/-- process_channel never writes the context's cached temperature
coefficient: it survives every evaluation unchanged. -/
lemma pc_temp_coefficient (nvs : nvs_config_t) (ctx : channel_context_t)
    (r : adc_reading_t) :
    (process_channel nvs ctx r).temp_coefficient = ctx.temp_coefficient := by
  simp only [process_channel]
  split_ifs <;> rfl

/-- Claim C3 (counterexample): at coefficient 1/16 V/°C (exactly
representable in binary floating point) and 26 °C, the code's
compensation is the truncation 62 of 62.5 mV, while the spec's
round-to-nearest gives 63 mV. -/
theorem C3_compensation_round_counterexample :
    compensation_mv (1/16) 26 = 62
    ∧ round ((1/16 : ℚ) * (26 - 25) * 1000) = 63
    ∧ (62 : ℤ) ≠ 63 := by
  have h : ((1:ℚ)/16) * (26 - 25) * 1000 = 125/2 := by norm_num
  refine ⟨?_, ?_, by decide⟩
  · simp only [compensation_mv, h, ratTrunc]
    rw [if_pos (by norm_num)]
    norm_num
  · rw [h, round_eq]
    norm_num

/-- Claim C3 (amended): the compensation applied by the pipeline is the
truncation toward zero (not the rounding to nearest) of
coefficient * (temp - 25) * 1000, and both effective thresholds equal
the base thresholds plus exactly this compensation. -/
theorem C3_compensation_truncation (nvs : nvs_config_t)
    (ctx : channel_context_t) (temp_c : ℚ) :
    (apply_temperature_compensation nvs ctx temp_c).th_on_mv
      = base_th_on nvs ctx.channel_id
        + compensation_mv ctx.temp_coefficient temp_c
    ∧ (apply_temperature_compensation nvs ctx temp_c).th_off_mv
      = base_th_off nvs ctx.channel_id
        + compensation_mv ctx.temp_coefficient temp_c
    ∧ compensation_mv ctx.temp_coefficient temp_c
      = (if 0 ≤ ctx.temp_coefficient * (temp_c - 25) * 1000
         then ⌊ctx.temp_coefficient * (temp_c - 25) * 1000⌋
         else ⌈ctx.temp_coefficient * (temp_c - 25) * 1000⌉) :=
  ⟨atc_th_on nvs ctx temp_c, atc_th_off nvs ctx temp_c, rfl⟩

/-- Claim C2 (counterexample): start channel 0 from nvsOld (coefficient
-0.02), then change the stored coefficient to 0 (nvsW) and evaluate at
35 °C: the evaluation still uses the startup coefficient and yields
threshold 12300 mV, not the 12500 mV the new coefficient computes. -/
theorem C2_live_config_counterexample :
    (apply_temperature_compensation nvsW
        (ctx_init (config_from_nvs_ch0 nvsOld)) 35).th_on_mv = 12300
    ∧ nvsW.ch0_th_on_mv + compensation_mv nvsW.temp_coefficient 35 = 12500
    ∧ (12300 : ℤ) ≠ 12500 := by
  refine ⟨?_, ?_, by decide⟩
  · rw [atc_th_on,
        show (ctx_init (config_from_nvs_ch0 nvsOld)).temp_coefficient
          = -1/50 from rfl,
        show (ctx_init (config_from_nvs_ch0 nvsOld)).channel_id = 0 from rfl]
    have h : ((-1 : ℚ)/50) * (35 - 25) * 1000 = -200 := by norm_num
    simp only [compensation_mv, h, ratTrunc]
    rw [if_neg (by norm_num),
        show ((-200 : ℚ)) = -(200 : ℚ) by norm_num, Int.ceil_neg]
    norm_num [base_th_on, nvsW]
  · rw [show nvsW.temp_coefficient = 0 from rfl, compensation_mv_zero]
    decide

/-- Claim C2 (amended): each evaluation reads the base on/off thresholds
live from the per-call NVS configuration, but the temperature
coefficient it uses is the one cached in the channel context at task
startup: changing the stored coefficient between evaluations has no
effect, the context's coefficient is never rewritten by an evaluation,
and that context coefficient is the one copied from NVS at startup. -/
theorem C2_thresholds_live_coefficient_cached (nvs : nvs_config_t)
    (c' : ℚ) (ctx : channel_context_t) (t : ℚ) (r : adc_reading_t) :
    apply_temperature_compensation { nvs with temp_coefficient := c' } ctx t
      = apply_temperature_compensation nvs ctx t
    ∧ (apply_temperature_compensation nvs ctx t).th_on_mv
      = base_th_on nvs ctx.channel_id
        + compensation_mv ctx.temp_coefficient t
    ∧ (apply_temperature_compensation nvs ctx t).th_off_mv
      = base_th_off nvs ctx.channel_id
        + compensation_mv ctx.temp_coefficient t
    ∧ (process_channel nvs ctx r).temp_coefficient = ctx.temp_coefficient
    ∧ (ctx_init (config_from_nvs_ch0 nvs)).temp_coefficient
      = nvs.temp_coefficient :=
  ⟨rfl, atc_th_on nvs ctx t, atc_th_off nvs ctx t,
   pc_temp_coefficient nvs ctx r, rfl⟩

end SolarController

namespace SolarController

/-- An applied state change passed the debounce gate and stamped the
reading's timestamp into last_change_time. -/
lemma pc_state_change (nvs : nvs_config_t) (ctx : channel_context_t)
    (r : adc_reading_t)
    (h : (process_channel nvs ctx r).state.output_state
        ≠ ctx.state.output_state) :
    MIN_STATE_CHANGE_MS ≤ wsub32 r.timestamp_ms ctx.state.last_change_time
    ∧ (process_channel nvs ctx r).state.last_change_time = r.timestamp_ms := by
  simp only [process_channel] at h ⊢
  split_ifs at h ⊢ with h1 h2
  · exact absurd rfl h
  · exact ⟨h2, rfl⟩
  · exact absurd rfl h

/-- A cycle that leaves the output unchanged (no candidate change, or a
candidate discarded by the debounce gate) leaves last_change_time
untouched. -/
lemma pc_no_change (nvs : nvs_config_t) (ctx : channel_context_t)
    (r : adc_reading_t)
    (h : (process_channel nvs ctx r).state.output_state
        = ctx.state.output_state) :
    (process_channel nvs ctx r).state.last_change_time
      = ctx.state.last_change_time := by
  simp only [process_channel] at h ⊢
  split_ifs at h ⊢ with h1 h2
  · rfl
  · exact absurd h h1
  · rfl

/-- A transition-free stretch of readings preserves last_change_time. -/
lemma noTransitionB_last (nvs : nvs_config_t) :
    ∀ (rs : List adc_reading_t) (ctx : channel_context_t),
      noTransitionB nvs ctx rs = true →
      (runList nvs ctx rs).state.last_change_time
        = ctx.state.last_change_time := by
  intro rs
  induction rs with
  | nil => intro ctx _; rfl
  | cons r rs ih =>
    intro ctx h
    simp only [noTransitionB, Bool.and_eq_true, beq_iff_eq] at h
    have h2 := ih (process_channel nvs ctx r) h.2
    simp only [runList, List.foldl_cons] at h2 ⊢
    exact h2.trans (pc_no_change nvs ctx r h.1)

/-- Claim C5: a candidate state change is applied only when the wrapped
32-bit difference now - last_change is at least 5000 ms, and
last_change_time is stamped with the reading's timestamp exactly on an
applied transition (otherwise it is preserved, the deferred candidate
being discarded); consequently two consecutive applied transitions of a
channel are at least 5000 ms apart in wrapped timestamp delta. -/
theorem C5_debounce_min_dwell :
    (∀ (nvs : nvs_config_t) (ctx : channel_context_t) (r : adc_reading_t),
      (process_channel nvs ctx r).state.output_state
          ≠ ctx.state.output_state →
      MIN_STATE_CHANGE_MS ≤ wsub32 r.timestamp_ms ctx.state.last_change_time
      ∧ (process_channel nvs ctx r).state.last_change_time = r.timestamp_ms)
    ∧ (∀ (nvs : nvs_config_t) (ctx : channel_context_t) (r : adc_reading_t),
      (process_channel nvs ctx r).state.output_state
          = ctx.state.output_state →
      (process_channel nvs ctx r).state.last_change_time
        = ctx.state.last_change_time)
    ∧ (∀ (nvs : nvs_config_t) (ctx : channel_context_t)
        (r1 : adc_reading_t) (rs : List adc_reading_t) (r2 : adc_reading_t),
      (process_channel nvs ctx r1).state.output_state
          ≠ ctx.state.output_state →
      noTransitionB nvs (process_channel nvs ctx r1) rs = true →
      (process_channel nvs (runList nvs (process_channel nvs ctx r1) rs)
          r2).state.output_state
          ≠ (runList nvs (process_channel nvs ctx r1) rs).state.output_state →
      MIN_STATE_CHANGE_MS ≤ wsub32 r2.timestamp_ms r1.timestamp_ms) := by
  refine ⟨pc_state_change, pc_no_change, ?_⟩
  intro nvs ctx r1 rs r2 h1 hnt h2
  have e1 : (process_channel nvs ctx r1).state.last_change_time
      = r1.timestamp_ms := (pc_state_change nvs ctx r1 h1).2
  have e2 := noTransitionB_last nvs rs (process_channel nvs ctx r1) hnt
  have e3 := (pc_state_change nvs
    (runList nvs (process_channel nvs ctx r1) rs) r2 h2).1
  rw [e2, e1] at e3
  exact e3

end SolarController

namespace SolarController

/-- The state update process_channel performs, written without any
rational arithmetic; it equals the real update whenever the cached
coefficient is 0 (see process_channel_zctx). -/
def next_state_z (nvs : nvs_config_t) (chid : ℤ) (ma : moving_average_t)
    (st : channel_state_t) (r : adc_reading_t) : channel_state_t :=
  let filtered := ma_get (ma_add ma (uint32ToInt32 r.battery_voltage_mv))
  let ns := apply_hysteresis st.output_state filtered
    (base_th_on nvs chid) (base_th_off nvs chid)
  if ns = st.output_state then
    ⟨st.output_state, filtered, st.last_change_time⟩
  else if MIN_STATE_CHANGE_MS ≤ wsub32 r.timestamp_ms st.last_change_time then
    ⟨ns, filtered, r.timestamp_ms⟩
  else ⟨st.output_state, filtered, st.last_change_time⟩

/-- Evaluation lemma: on a context whose cached coefficient is 0 and
whose last seen temperature is the 25 °C reference, a reading at raw
temperature 750 (exactly 25 °C for the TMP36 conversion) updates the
filter and state componentwise with no rational arithmetic left. -/
lemma process_channel_zctx (nvs : nvs_config_t) (chid : ℤ)
    (ma : moving_average_t) (st : channel_state_t) (tOn tOff : ℤ)
    (r : adc_reading_t) (hraw : r.temperature_raw = 750) :
    process_channel nvs ⟨chid, ma, st, tOn, tOff, 0, 25⟩ r
      = ⟨chid, ma_add ma (uint32ToInt32 r.battery_voltage_mv),
         next_state_z nvs chid ma st r,
         base_th_on nvs chid, base_th_off nvs chid, 0, 25⟩ := by
  have htemp : sanitize_temp (temp_from_raw r.temperature_raw) = 25 := by
    rw [hraw]
    norm_num [sanitize_temp, temp_from_raw]
  simp only [process_channel, next_state_z, apply_temperature_compensation,
             htemp, compensation_mv_zero, add_zero, ite_self]
  split_ifs <;> rfl

/-- The C5 witness configuration: channel-0 thresholds 12500/12200 mV,
zero coefficient. -/
def nvsW2 : nvs_config_t :=
  { ch0_th_on_mv := 12500, ch0_th_off_mv := 12200,
    ch1_th_on_mv := 12500, ch1_th_off_mv := 12200,
    temp_coefficient := 0, pwm_half_duty := 50, pwm_full_duty := 100,
    motion_timeout_ms := 30000 }

/-- The C5 witness startup context for channel 0. -/
def ctxZ : channel_context_t := ctx_init (config_from_nvs_ch0 nvsW2)

/-- Witness reading: 13000 mV at 25 °C, t = 6000 ms. -/
def rA : adc_reading_t :=
  { battery_voltage_mv := 13000, temperature_raw := 750, timestamp_ms := 6000 }

/-- Witness reading: 13000 mV at 25 °C, t = 6100 ms (no state change). -/
def rC : adc_reading_t :=
  { battery_voltage_mv := 13000, temperature_raw := 750, timestamp_ms := 6100 }

/-- Witness reading: 0 mV at 25 °C, t = 11000 ms (drops the average
below the OFF threshold exactly 5000 ms after the ON transition). -/
def rB : adc_reading_t :=
  { battery_voltage_mv := 0, temperature_raw := 750, timestamp_ms := 11000 }

/-- Witness for C5: the startup context turns ON at t = 6000 (debounce
gate passed, timestamp stamped), a steady reading at t = 6100 preserves
last_change_time, and the next applied transition at t = 11000 is
exactly 5000 ms after the first. -/
theorem C5_debounce_witness :
    (MIN_STATE_CHANGE_MS ≤ wsub32 rA.timestamp_ms ctxZ.state.last_change_time
      ∧ (process_channel nvsW2 ctxZ rA).state.last_change_time
          = rA.timestamp_ms)
    ∧ (process_channel nvsW2 (process_channel nvsW2 ctxZ rA)
          rC).state.last_change_time
        = (process_channel nvsW2 ctxZ rA).state.last_change_time
    ∧ MIN_STATE_CHANGE_MS ≤ wsub32 rB.timestamp_ms rA.timestamp_ms := by
  have hz : ctxZ = ⟨0, ma_init, ⟨false, 0, 0⟩, 12500, 12200, 0, 25⟩ := rfl
  have hA : process_channel nvsW2 ctxZ rA
      = ⟨0, ma_add ma_init (uint32ToInt32 rA.battery_voltage_mv),
         next_state_z nvsW2 0 ma_init ⟨false, 0, 0⟩ rA,
         base_th_on nvsW2 0, base_th_off nvsW2 0, 0, 25⟩ := by
    rw [hz]
    exact process_channel_zctx nvsW2 0 ma_init ⟨false, 0, 0⟩ 12500 12200 rA rfl
  have h1 : (process_channel nvsW2 ctxZ rA).state.output_state
      ≠ ctxZ.state.output_state := by
    rw [hA, hz]; decide
  have h2 : (process_channel nvsW2 (process_channel nvsW2 ctxZ rA)
        rC).state.output_state
      = (process_channel nvsW2 ctxZ rA).state.output_state := by
    rw [hA, process_channel_zctx nvsW2 0 _ _ _ _ rC rfl]
    decide
  have h3 : (process_channel nvsW2
        (runList nvsW2 (process_channel nvsW2 ctxZ rA) [])
          rB).state.output_state
      ≠ (runList nvsW2 (process_channel nvsW2 ctxZ rA) []).state.output_state := by
    show (process_channel nvsW2 (process_channel nvsW2 ctxZ rA)
        rB).state.output_state
      ≠ (process_channel nvsW2 ctxZ rA).state.output_state
    rw [hA, process_channel_zctx nvsW2 0 _ _ _ _ rB rfl]
    decide
  exact ⟨C5_debounce_min_dwell.1 nvsW2 ctxZ rA h1,
         C5_debounce_min_dwell.2.1 nvsW2 (process_channel nvsW2 ctxZ rA) rC h2,
         C5_debounce_min_dwell.2.2 nvsW2 ctxZ rA [] rB h1 rfl h3⟩

end SolarController
